import Mathlib

/-!
Shallow embedding of `src/prefect/runtime/task_run.py`: a runtime context
attribute resolver exposing attributes of the current task run, with
environment-variable overrides (`PREFECT__RUNTIME__TASK_RUN__<NAME>`) coerced
to the type of the real resolver value.
-/

/-- Python runtime values that flow through this module: `None`, strings,
booleans, integers, floats (modelled as mantissa `num` scaled by `10 ^ exp`),
`pendulum.DateTime` instants (modelled as an abstract timestamp), lists of
strings (the `tags` collection) and string-keyed mappings (the `parameters`
dict). -/
inductive Value where
  | vNone : Value
  | vStr : String → Value
  | vBool : Bool → Value
  | vInt : Int → Value
  | vFloat : Int → Nat → Value
  | vDate : Nat → Value
  | vList : List String → Value
  | vMap : List (String × Value) → Value
deriving Repr

/-- The task-run record reachable from the ambient context
(`task_run_ctx.task_run`): identifier, display name and tag collection. -/
structure TaskRun where
  id : Nat
  name : String
  tags : List String

/-- The task definition reachable from the ambient context
(`task_run_ctx.task`); named `TaskDef` here because `Task` is taken by the
Lean core library. -/
structure TaskDef where
  name : String

/-- The ambient `TaskRunContext`: holds the task run, the task definition and
the call parameters.  `TaskRunContext.get()` returning `None` is modelled by
passing `Option TaskRunContext` to each resolver. -/
structure TaskRunContext where
  task_run : TaskRun
  task : TaskDef
  parameters : List (String × Value)

/-- `get_id`: stringify the context's task-run identifier; with no active
context the Python function falls off its end and returns `None`. -/
def get_id (ctx : Option TaskRunContext) : Value :=
  match ctx with
  | some c => Value.vStr (toString c.task_run.id)
  | none => Value.vNone

/-- `get_tags`: the task run's tag collection, or the empty list without an
active context. -/
def get_tags (ctx : Option TaskRunContext) : Value :=
  match ctx with
  | some c => Value.vList c.task_run.tags
  | none => Value.vList []

/-- `get_name`: the task run's display name, or `None` without an active
context. -/
def get_name (ctx : Option TaskRunContext) : Value :=
  match ctx with
  | some c => Value.vStr c.task_run.name
  | none => Value.vNone

/-- `get_task_name`: the task definition's name, or `None` without an active
context. -/
def get_task_name (ctx : Option TaskRunContext) : Value :=
  match ctx with
  | some c => Value.vStr c.task.name
  | none => Value.vNone

/-- `get_parameters`: the context's call parameters, or the empty mapping
without an active context. -/
def get_parameters (ctx : Option TaskRunContext) : Value :=
  match ctx with
  | some c => Value.vMap c.parameters
  | none => Value.vMap []

/-- The `FIELDS` registry mapping attribute names to resolver functions, in
source order. -/
def FIELDS : List (String × (Option TaskRunContext → Value)) :=
  [ ("id", get_id)
  , ("tags", get_tags)
  , ("name", get_name)
  , ("parameters", get_parameters)
  , ("task_name", get_task_name) ]

/-- The module's `__all__` constant, in source order. -/
def all_names : List String := ["id", "tags", "name", "parameters", "task_name"]

/-- `__dir__`: `sorted(__all__)`. -/
def dunder_dir : List String := all_names.mergeSort (· ≤ ·)

/-- Model of Python's `str.upper()`: uppercase each character of the string. -/
def upper (s : String) : String := String.mk (s.data.map Char.toUpper)

/-- The environment key consulted for an attribute override:
`PREFECT__RUNTIME__TASK_RUN__` followed by the uppercased attribute name. -/
def envKey (name : String) : String :=
  "PREFECT__RUNTIME__TASK_RUN__" ++ upper name

/-- Value of a string of decimal digits (used by the numeric parse models). -/
def digitsVal (cs : List Char) : Nat :=
  cs.foldl (fun a c => a * 10 + (c.toNat - 48)) 0

/-- Model of the Python builtin `int(·)` on strings: an optional sign followed
by at least one decimal digit; `none` when malformed (Python raises
`ValueError`). -/
def parsePyInt (s : String) : Option Int :=
  let sgn : Int := if s.startsWith "-" then -1 else 1
  let body := if s.startsWith "-" ∨ s.startsWith "+" then s.drop 1 else s
  if body ≠ "" ∧ body.data.all Char.isDigit then some (sgn * digitsVal body.data)
  else none

/-- Model of the Python builtin `float(·)` on strings, restricted to plain
decimal literals: an optional sign, then `digits[.digits]` with at least one
digit; returns mantissa and decimal exponent, `none` when malformed (Python
raises `ValueError`). -/
def parsePyFloat (s : String) : Option (Int × Nat) :=
  let sgn : Int := if s.startsWith "-" then -1 else 1
  let body := if s.startsWith "-" ∨ s.startsWith "+" then s.drop 1 else s
  match body.split (· = '.') with
  | [w] =>
      if w ≠ "" ∧ w.data.all Char.isDigit then some (sgn * digitsVal w.data, 0)
      else none
  | [w, f] =>
      if (w.data ++ f.data) ≠ [] ∧ (w.data ++ f.data).all Char.isDigit then
        some (sgn * digitsVal (w.data ++ f.data), f.length)
      else none
  | _ => none

/-- Modelled from the spec: the external date-parsing collaborator
`parse(text) -> Instant` (`dateparser`/`pendulum` live outside this
repository).  Modelled as parsing a decimal timestamp; `none` on failure, in
which case the caller fails (Python: `pendulum.instance(None)` raises). -/
def dateparser_parse (s : String) : Option Nat := s.toNat?

/-- The failure modes of attribute resolution: `attributeError name` is the
`AttributeError` raised for an unregistered name, carrying the offending
name; `coercionError s` covers the exceptions raised when the override string
`s` cannot be parsed as the real value's numeric/date type (`ValueError` from
`int`/`float`, failure of the date-parsing collaborator). -/
inductive ResolveError where
  | attributeError : String → ResolveError
  | coercionError : String → ResolveError
deriving Repr, DecidableEq

/-- The coercion layer of `__getattr__`: cast the override string
`mocked_value` to the runtime type of `real_value`, following the source's
`isinstance` chain — bool → truthiness of the string, int/float → numeric
parse, DateTime → date parse, anything else (None, str, list, dict) → the raw
override string. -/
def castEnvVar (real_value : Value) (mocked_value : String) :
    Except ResolveError Value :=
  match real_value with
  | Value.vBool _ => Except.ok (Value.vBool (mocked_value != ""))
  | Value.vInt _ =>
      match parsePyInt mocked_value with
      | some n => Except.ok (Value.vInt n)
      | none => Except.error (ResolveError.coercionError mocked_value)
  | Value.vFloat _ _ =>
      match parsePyFloat mocked_value with
      | some me => Except.ok (Value.vFloat me.1 me.2)
      | none => Except.error (ResolveError.coercionError mocked_value)
  | Value.vDate _ =>
      match dateparser_parse mocked_value with
      | some t => Except.ok (Value.vDate t)
      | none => Except.error (ResolveError.coercionError mocked_value)
  | _ => Except.ok (Value.vStr mocked_value)

/-- `__getattr__` — the `resolve` operation: look the name up in `FIELDS`;
for a registered name compute the real value and apply the override coercion
when the environment defines the override key; for an unregistered name
return the raw override string when defined, otherwise raise
`AttributeError` carrying the name. -/
def dunder_getattr (name : String) (ctx : Option TaskRunContext)
    (env : List (String × String)) : Except ResolveError Value :=
  match FIELDS.lookup name with
  | some func =>
      let real_value := func ctx
      match env.lookup (envKey name) with
      | some mocked_value => castEnvVar real_value mocked_value
      | none => Except.ok real_value
  | none =>
      match env.lookup (envKey name) with
      | some v => Except.ok (Value.vStr v)
      | none => Except.error (ResolveError.attributeError name)

/-- Whether a value has one of the scalar types singled out by the coercion
chain (bool, int, float, DateTime); the remaining types (None, str, list,
dict) fall into the default raw-string branch. -/
def Value.isScalarCoercible : Value → Bool
  | Value.vBool _ => true
  | Value.vInt _ => true
  | Value.vFloat _ _ => true
  | Value.vDate _ => true
  | _ => false

lemma castEnvVar_error {v : Value} {m : String} {e : ResolveError}
    (h : castEnvVar v m = Except.error e) : e = ResolveError.coercionError m := by
  cases v <;> simp only [castEnvVar] at h <;> first
    | (cases h)
    | (split at h <;> simp_all)

lemma castEnvVar_not_scalar {v : Value} (m : String)
    (h : v.isScalarCoercible = false) :
    castEnvVar v m = Except.ok (Value.vStr m) := by
  cases v <;> simp_all [castEnvVar, Value.isScalarCoercible]

lemma FIELDS_lookup_mem {name : String} {f : Option TaskRunContext → Value}
    (h : FIELDS.lookup name = some f) :
    f = get_id ∨ f = get_tags ∨ f = get_name ∨ f = get_parameters ∨
      f = get_task_name := by
  simp only [FIELDS, List.lookup] at h
  repeat' split at h
  all_goals simp_all

lemma resolver_not_scalar {name : String} {f : Option TaskRunContext → Value}
    (h : FIELDS.lookup name = some f) (ctx : Option TaskRunContext) :
    (f ctx).isScalarCoercible = false := by
  rcases FIELDS_lookup_mem h with rfl | rfl | rfl | rfl | rfl <;>
    cases ctx <;>
    simp [get_id, get_tags, get_name, get_parameters, get_task_name,
      Value.isScalarCoercible]

/-- C1: for every registered attribute name other than `id` (`name`, `tags`,
`parameters`, `task_name`), resolving it with no override configured and no
active ambient context returns exactly the documented neutral default: the
empty list for `tags`, the empty mapping for `parameters`, and `None` for
`name` and `task_name`. -/
theorem c1_neutral_defaults (env : List (String × String))
    (htags : env.lookup (envKey "tags") = none)
    (hparams : env.lookup (envKey "parameters") = none)
    (hname : env.lookup (envKey "name") = none)
    (htask : env.lookup (envKey "task_name") = none) :
    dunder_getattr "tags" none env = Except.ok (Value.vList []) ∧
    dunder_getattr "parameters" none env = Except.ok (Value.vMap []) ∧
    dunder_getattr "name" none env = Except.ok Value.vNone ∧
    dunder_getattr "task_name" none env = Except.ok Value.vNone := by
  refine ⟨?_, ?_, ?_, ?_⟩ <;>
    simp [dunder_getattr, FIELDS, List.lookup, htags, hparams, hname, htask,
      get_tags, get_parameters, get_name, get_task_name]

/-- Witness for C1 at the empty environment. -/
theorem c1_neutral_defaults_witness :
    dunder_getattr "tags" none [] = Except.ok (Value.vList []) ∧
    dunder_getattr "parameters" none [] = Except.ok (Value.vMap []) ∧
    dunder_getattr "name" none [] = Except.ok Value.vNone ∧
    dunder_getattr "task_name" none [] = Except.ok Value.vNone :=
  c1_neutral_defaults [] rfl rfl rfl rfl

/-- C2: for every registered attribute name, resolving it while an ambient
context is active and no override is configured returns the value read from
that context unmodified: for `id` the context's task-run identifier
stringified, for the others the context field itself. -/
theorem c2_context_passthrough (c : TaskRunContext) (env : List (String × String))
    (hid : env.lookup (envKey "id") = none)
    (htags : env.lookup (envKey "tags") = none)
    (hparams : env.lookup (envKey "parameters") = none)
    (hname : env.lookup (envKey "name") = none)
    (htask : env.lookup (envKey "task_name") = none) :
    dunder_getattr "id" (some c) env =
      Except.ok (Value.vStr (toString c.task_run.id)) ∧
    dunder_getattr "tags" (some c) env = Except.ok (Value.vList c.task_run.tags) ∧
    dunder_getattr "parameters" (some c) env =
      Except.ok (Value.vMap c.parameters) ∧
    dunder_getattr "name" (some c) env = Except.ok (Value.vStr c.task_run.name) ∧
    dunder_getattr "task_name" (some c) env =
      Except.ok (Value.vStr c.task.name) := by
  refine ⟨?_, ?_, ?_, ?_, ?_⟩ <;>
    simp [dunder_getattr, FIELDS, List.lookup, hid, htags, hparams, hname, htask,
      get_id, get_tags, get_parameters, get_name, get_task_name]

/-- Witness for C2 at a concrete context and the empty environment. -/
theorem c2_context_passthrough_witness :
    dunder_getattr "id"
        (some ⟨⟨7, "my-run", ["a", "b"]⟩, ⟨"my-task"⟩, [("x", Value.vInt 1)]⟩) [] =
      Except.ok (Value.vStr "7") ∧
    dunder_getattr "tags"
        (some ⟨⟨7, "my-run", ["a", "b"]⟩, ⟨"my-task"⟩, [("x", Value.vInt 1)]⟩) [] =
      Except.ok (Value.vList ["a", "b"]) ∧
    dunder_getattr "parameters"
        (some ⟨⟨7, "my-run", ["a", "b"]⟩, ⟨"my-task"⟩, [("x", Value.vInt 1)]⟩) [] =
      Except.ok (Value.vMap [("x", Value.vInt 1)]) ∧
    dunder_getattr "name"
        (some ⟨⟨7, "my-run", ["a", "b"]⟩, ⟨"my-task"⟩, [("x", Value.vInt 1)]⟩) [] =
      Except.ok (Value.vStr "my-run") ∧
    dunder_getattr "task_name"
        (some ⟨⟨7, "my-run", ["a", "b"]⟩, ⟨"my-task"⟩, [("x", Value.vInt 1)]⟩) [] =
      Except.ok (Value.vStr "my-task") :=
  c2_context_passthrough ⟨⟨7, "my-run", ["a", "b"]⟩, ⟨"my-task"⟩, [("x", Value.vInt 1)]⟩
    [] rfl rfl rfl rfl rfl

/-- C7: with no active ambient context and no override configured for `id`,
resolving `id` returns `None`: the `id` resolver's absent-context path falls
off the end of the Python function without an explicit default. -/
theorem c7_id_absent_none (env : List (String × String))
    (hid : env.lookup (envKey "id") = none) :
    dunder_getattr "id" none env = Except.ok Value.vNone := by
  simp [dunder_getattr, FIELDS, List.lookup, hid, get_id]

/-- Witness for C7 at the empty environment. -/
theorem c7_id_absent_none_witness :
    dunder_getattr "id" none [] = Except.ok Value.vNone :=
  c7_id_absent_none [] rfl

/-- C3: for any registered attribute whose real (resolver-produced) value is a
list or a mapping, a configured override string is returned unchanged, with no
structural coercion. -/
theorem c3_compound_override_raw (name : String)
    (f : Option TaskRunContext → Value) (ctx : Option TaskRunContext)
    (env : List (String × String)) (s : String)
    (hreg : FIELDS.lookup name = some f)
    (hcompound : (∃ xs, f ctx = Value.vList xs) ∨ (∃ m, f ctx = Value.vMap m))
    (hover : env.lookup (envKey name) = some s) :
    dunder_getattr name ctx env = Except.ok (Value.vStr s) := by
  simp only [dunder_getattr, hreg, hover]
  rcases hcompound with ⟨xs, hx⟩ | ⟨m, hx⟩ <;> rw [hx] <;> simp [castEnvVar]

/-- Witness for C3: with an active context whose real `parameters` value is a
mapping, the override string "42" is returned as the string "42". -/
theorem c3_compound_override_raw_witness :
    dunder_getattr "parameters"
        (some ⟨⟨7, "my-run", ["a"]⟩, ⟨"my-task"⟩, [("x", Value.vInt 1)]⟩)
        [(envKey "parameters", "42")] =
      Except.ok (Value.vStr "42") :=
  c3_compound_override_raw "parameters" get_parameters
    (some ⟨⟨7, "my-run", ["a"]⟩, ⟨"my-task"⟩, [("x", Value.vInt 1)]⟩)
    [(envKey "parameters", "42")] "42" rfl
    (Or.inr ⟨[("x", Value.vInt 1)], rfl⟩) rfl

/-- C4: resolving a name that is not in the resolver registry, with no
override configured for it, fails with `AttributeError` carrying the
offending name. -/
theorem c4_unknown_attribute_error (name : String) (ctx : Option TaskRunContext)
    (env : List (String × String))
    (hreg : FIELDS.lookup name = none)
    (hover : env.lookup (envKey name) = none) :
    dunder_getattr name ctx env =
      Except.error (ResolveError.attributeError name) := by
  simp [dunder_getattr, hreg, hover]

/-- Witness for C4 at the unregistered name "not_a_real_attr". -/
theorem c4_unknown_attribute_error_witness :
    dunder_getattr "not_a_real_attr" none [] =
      Except.error (ResolveError.attributeError "not_a_real_attr") :=
  c4_unknown_attribute_error "not_a_real_attr" none [] rfl rfl

/-- C5: resolving a name that is not in the resolver registry, with an
override configured for it, returns the raw override string with no coercion
attempted. -/
theorem c5_unknown_override_raw (name : String) (ctx : Option TaskRunContext)
    (env : List (String × String)) (s : String)
    (hreg : FIELDS.lookup name = none)
    (hover : env.lookup (envKey name) = some s) :
    dunder_getattr name ctx env = Except.ok (Value.vStr s) := by
  simp [dunder_getattr, hreg, hover]

/-- Witness for C5: override "x" for the unregistered name
"not_a_real_attr". -/
theorem c5_unknown_override_raw_witness :
    dunder_getattr "not_a_real_attr" none [(envKey "not_a_real_attr", "x")] =
      Except.ok (Value.vStr "x") :=
  c5_unknown_override_raw "not_a_real_attr" none
    [(envKey "not_a_real_attr", "x")] "x" rfl rfl

/-- C6: resolution fails only under exactly two conditions — `AttributeError`
when the name is unregistered and no override is configured, and a coercion
error when a configured override string cannot be parsed into the real
value's numeric/date type — and an absent ambient context never by itself
causes resolution to fail (any registered or overridden name resolves
successfully with no context). -/
theorem c6_failure_conditions :
    (∀ (name : String) (ctx : Option TaskRunContext)
        (env : List (String × String)) (e : ResolveError),
      dunder_getattr name ctx env = Except.error e →
        (FIELDS.lookup name = none ∧ env.lookup (envKey name) = none ∧
          e = ResolveError.attributeError name) ∨
        (∃ s, env.lookup (envKey name) = some s ∧
          e = ResolveError.coercionError s)) ∧
    (∀ (name : String) (env : List (String × String)),
      (FIELDS.lookup name).isSome = true ∨
        (env.lookup (envKey name)).isSome = true →
      ∃ v, dunder_getattr name none env = Except.ok v) := by
  constructor
  · intro name ctx env e h
    rcases hreg : FIELDS.lookup name with _ | f <;>
      rcases hover : env.lookup (envKey name) with _ | m <;>
      simp only [dunder_getattr, hreg, hover] at h
    · cases h
      exact Or.inl ⟨rfl, rfl, rfl⟩
    · cases h
    · cases h
    · exact Or.inr ⟨m, rfl, castEnvVar_error h⟩
  · intro name env h
    rcases hreg : FIELDS.lookup name with _ | f
    · rcases hover : env.lookup (envKey name) with _ | m
      · rw [hreg, hover] at h
        simp at h
      · exact ⟨Value.vStr m, by simp [dunder_getattr, hreg, hover]⟩
    · rcases hover : env.lookup (envKey name) with _ | m
      · exact ⟨f none, by simp [dunder_getattr, hreg, hover]⟩
      · refine ⟨Value.vStr m, ?_⟩
        simp only [dunder_getattr, hreg, hover]
        exact castEnvVar_not_scalar m (resolver_not_scalar hreg none)

/-- Witness for C6: the unknown-name failure at "not_a_real_attr" with an
empty environment, and successful no-context resolution of "tags". -/
theorem c6_failure_conditions_witness :
    ((FIELDS.lookup "not_a_real_attr" = none ∧
      List.lookup (envKey "not_a_real_attr") ([] : List (String × String)) =
        none ∧
      ResolveError.attributeError "not_a_real_attr" =
        ResolveError.attributeError "not_a_real_attr") ∨
     (∃ s,
      List.lookup (envKey "not_a_real_attr") ([] : List (String × String)) =
        some s ∧
      ResolveError.attributeError "not_a_real_attr" =
        ResolveError.coercionError s)) ∧
    (∃ v, dunder_getattr "tags" none [] = Except.ok v) :=
  ⟨c6_failure_conditions.1 "not_a_real_attr" none [] _ rfl,
   c6_failure_conditions.2 "tags" [] (Or.inl rfl)⟩

/-- C8: in the boolean branch of the override coercion, every non-empty
override string — including "false" — coerces to `true`, and only the empty
override string coerces to `false`; no textual override can represent
`false`. -/
theorem c8_bool_truthiness :
    (∀ (b : Bool) (s : String), s ≠ "" →
      castEnvVar (Value.vBool b) s = Except.ok (Value.vBool true)) ∧
    (∀ b : Bool, castEnvVar (Value.vBool b) "" =
      Except.ok (Value.vBool false)) := by
  constructor
  · intro b s hs
    simp [castEnvVar, hs]
  · intro b
    simp [castEnvVar]

/-- Witness for C8: the override string "false" coerces to `true`, the empty
string to `false`. -/
theorem c8_bool_truthiness_witness :
    castEnvVar (Value.vBool false) "false" = Except.ok (Value.vBool true) ∧
    castEnvVar (Value.vBool false) "" = Except.ok (Value.vBool false) :=
  ⟨c8_bool_truthiness.1 false "false" (by decide), c8_bool_truthiness.2 false⟩

/-- C9: `__dir__` always returns the same sequence — the registry's full key
set (`id`, `name`, `parameters`, `tags`, `task_name`) sorted
lexicographically — independent of any context or overrides (it reads
neither). -/
theorem c9_dir_sorted_constant :
    dunder_dir = ["id", "name", "parameters", "tags", "task_name"] ∧
    List.Sorted (· ≤ ·) dunder_dir ∧
    dunder_dir.Perm (FIELDS.map Prod.fst) := by
  have heq : dunder_dir = ["id", "name", "parameters", "tags", "task_name"] := by
    have hperm : dunder_dir.Perm all_names := List.mergeSort_perm all_names _
    have hpair : dunder_dir.Pairwise (fun a b : String => a ≤ b) := by
      have h := @List.sorted_mergeSort String
        (fun a b : String => decide (a ≤ b))
        (fun a b c hab hbc => by
          simp only [decide_eq_true_eq] at *
          exact le_trans hab hbc)
        (fun a b => by simpa using le_total a b)
        all_names
      exact h.imp (fun hx => by simpa using hx)
    have htarget :
        List.Sorted (· ≤ ·)
          (["id", "name", "parameters", "tags", "task_name"] : List String) := by
      simp [List.sorted_cons, String.le_iff_toList_le, String.toList]
      decide
    have hperm2 :
        dunder_dir.Perm
          (["id", "name", "parameters", "tags", "task_name"] : List String) :=
      hperm.trans (by decide)
    exact List.eq_of_perm_of_sorted hperm2 hpair htarget
  refine ⟨heq, ?_, ?_⟩
  · rw [heq]
    simp [List.sorted_cons, String.le_iff_toList_le, String.toList]
    decide
  · have hkeys : FIELDS.map Prod.fst = all_names := rfl
    rw [hkeys]
    exact List.mergeSort_perm all_names _

/-- C10: for every registered attribute name and every context state, the
resolver's real value is never of a scalar-coercible type (bool, int, float,
DateTime) — it is a string, `None`, a list or a mapping — so whenever an
override is configured for a registered name, resolution returns the raw
override string unchanged and the scalar coercion branches are never
taken. -/
theorem c10_no_scalar_real_values (name : String)
    (f : Option TaskRunContext → Value) (ctx : Option TaskRunContext)
    (env : List (String × String)) (s : String)
    (hreg : FIELDS.lookup name = some f)
    (hover : env.lookup (envKey name) = some s) :
    (f ctx).isScalarCoercible = false ∧
    dunder_getattr name ctx env = Except.ok (Value.vStr s) := by
  refine ⟨resolver_not_scalar hreg ctx, ?_⟩
  simp only [dunder_getattr, hreg, hover]
  exact castEnvVar_not_scalar s (resolver_not_scalar hreg ctx)

/-- Witness for C10: the `id` resolver with no context and override "boo". -/
theorem c10_no_scalar_real_values_witness :
    (get_id none).isScalarCoercible = false ∧
    dunder_getattr "id" none [(envKey "id", "boo")] =
      Except.ok (Value.vStr "boo") :=
  c10_no_scalar_real_values "id" get_id none [(envKey "id", "boo")] "boo"
    rfl rfl
